/-
Verification of the Matrix channel adapter (clawdbot): shallow embedding of
the inbound-event pipeline of `monitorMatrixProvider` / `handleMatrixEvent`
(replay guard, startup cutoff, DM policy / pairing, auto-join matcher) and of
the sync-backoff attempt counter from `src/matrix/client.ts`.

Strings are modelled as `List Char` (`Str`); each JavaScript string method
used by the source gets a small executable model (`jsTrim`, `toLowerStr`,
`jsStartsWith`, `List.drop` for `slice`), mirroring its ASCII semantics.
Timestamps are `Nat`, with `0` encoding a JavaScript-falsy timestamp
(absent or zero), matching the truthiness tests in the source.
-/
import Mathlib

/-- Identifier / text type of the embedding: a JS string as its character list. -/
abbrev Str := List Char

/-- Character list of a Lean string literal, for writing concrete inputs. -/
def str (s : String) : Str := s.data

/-- ASCII whitespace recognised by `String.prototype.trim`. -/
def isJsWhitespace (c : Char) : Bool :=
  c == ' ' || c == '\t' || c == '\n' || c == '\r'

/-- Model of `String.prototype.trim`: strip whitespace from both ends. -/
def jsTrim (s : Str) : Str :=
  ((s.dropWhile isJsWhitespace).reverse.dropWhile isJsWhitespace).reverse

/-- Model of `String.prototype.toLowerCase` (ASCII case folding). -/
def toLowerStr (s : Str) : Str := s.map Char.toLower

/-- Model of `s.startsWith(p)`. -/
def jsStartsWith (s p : Str) : Bool := p.isPrefixOf s

/-- `normalizeAllowEntry` (monitor.ts): trim, strip a leading `matrix:`
protocol prefix, lowercase.  `"matrix:".length = 7`. -/
def normalizeAllowEntry (entry : Str) : Str :=
  let value := jsTrim entry
  if value = [] then []
  else
    let value :=
      if jsStartsWith (toLowerStr value) (str "matrix:") then jsTrim (value.drop 7)
      else value
    toLowerStr value

/-- `resolveAllowFrom` (monitor.ts): normalize every entry, drop empties. -/
def resolveAllowFrom (entries : List Str) : List Str :=
  (entries.map normalizeAllowEntry).filter (fun e => e != [])

/-- Helper for `jsSetDedup`: drop elements already seen, keeping first
occurrences (the iteration order of a JS `Set`). -/
def jsSetDedupGo (seen : List Str) : List Str → List Str
  | [] => []
  | x :: xs =>
    if x ∈ seen then jsSetDedupGo seen xs
    else x :: jsSetDedupGo (x :: seen) xs

/-- Model of `Array.from(new Set(l))`: deduplicate keeping first occurrences. -/
def jsSetDedup (l : List Str) : List Str := jsSetDedupGo [] l

/-- The per-account DM policy (`dmPolicy`).  `open` is a Lean keyword, hence
`openPolicy`. -/
inductive DmPolicy
  | openPolicy
  | pairing
  | allowlist
  | disabled
deriving DecidableEq, Repr

/-- The configuration and session constants visible to `handleMatrixEvent`:
the logged-in user id, whether a persisted resync token existed at start
(`hasSyncToken`), the startup cutoff captured at monitor start, the account's
DM policy, the configured `allowFrom` list and the pairing-store approved
list (`readChannelAllowFromStore("matrix")`). -/
structure MonitorCtx where
  selfId : Str
  hasSyncToken : Bool
  startupCutoff : Nat
  dmPolicy : DmPolicy
  allowFrom : List Str
  storeAllow : List Str
deriving DecidableEq, Repr

/-- `resolveEffectiveAllowFrom` (monitor.ts): union (as a deduplicated list)
of the normalized configured allow-list and the pairing-store approved list. -/
def resolveEffectiveAllowFrom (ctx : MonitorCtx) : List Str :=
  jsSetDedup (resolveAllowFrom ctx.allowFrom ++ ctx.storeAllow)

/-- The `allowed` test of `handleMatrixEvent` (monitor.ts lines 376-383):
wildcard `"*"` in the effective allow-set, or the case-normalized,
prefix-stripped sender id is a member. -/
def isAllowed (ctx : MonitorCtx) (senderId : Str) : Bool :=
  let effectiveAllowFrom := resolveEffectiveAllowFrom ctx
  let normalizedSender := normalizeAllowEntry senderId
  let allowWildcard := effectiveAllowFrom.contains (str "*")
  allowWildcard || effectiveAllowFrom.contains normalizedSender

/-- `extractMatrixDomain` (monitor.ts): the portion after the first `:`,
or empty when there is no `:`. -/
def extractMatrixDomain (value : Str) : Str :=
  match value.dropWhile (fun c => c != ':') with
  | [] => []
  | _ :: rest => rest

/-- The wildcard-shape test of `matchesAutoJoinEntry`: the entry starts with
`!*:`, `#*:` or `@*:`. -/
def isAutoJoinWildcard (entry : Str) : Bool :=
  jsStartsWith entry (str "!*:") || jsStartsWith entry (str "#*:") ||
    jsStartsWith entry (str "@*:")

/-- `matchesAutoJoinEntry` (monitor.ts lines 115-130): normalize the
candidate; a wildcard entry requires the same sigil and an equal, nonempty
domain; a literal entry requires exact equality with the normalized
candidate. -/
def matchesAutoJoinEntry (entry candidate : Str) : Bool :=
  let normalized := toLowerStr (jsTrim candidate)
  if normalized = [] then false
  else if isAutoJoinWildcard entry then
    match entry with
    | [] => false
    | sigil :: _ =>
      if jsStartsWith normalized [sigil] = false then false
      else
        let domain := extractMatrixDomain normalized
        let entryDomain := entry.drop 3
        decide (domain ≠ [] ∧ domain = entryDomain)
  else decide (normalized = entry)

/-- `normalizeAutoJoinEntry` (monitor.ts lines 80-101): trim and lowercase;
reject bare `*:`-prefixed entries; wildcard entries need a nonempty domain;
otherwise require a `!`, `#` or `@` sigil. -/
def normalizeAutoJoinEntry (raw : Str) : Option Str :=
  let trimmed := jsTrim raw
  if trimmed = [] then none
  else
    let normalized := toLowerStr trimmed
    if jsStartsWith normalized (str "*:") then none
    else if jsStartsWith normalized (str "!*:") || jsStartsWith normalized (str "#*:") ||
        jsStartsWith normalized (str "@*:") then
      let domain := jsTrim (normalized.drop 3)
      if domain = [] then none else some normalized
    else if jsStartsWith normalized (str "!") || jsStartsWith normalized (str "#") ||
        jsStartsWith normalized (str "@") then
      some normalized
    else none

/-- `normalizeAutoJoinAllowlist` (monitor.ts): normalize entries, drop rejects. -/
def normalizeAutoJoinAllowlist (entries : List Str) : List Str :=
  entries.filterMap normalizeAutoJoinEntry

/-- `shouldAutoJoinInvite` (monitor.ts lines 132-143): empty allowlist never
joins; otherwise join when any candidate matches any entry. -/
def shouldAutoJoinInvite (allowlist candidates : List Str) : Bool :=
  if allowlist = [] then false
  else candidates.any fun candidate =>
    allowlist.any fun entry => matchesAutoJoinEntry entry candidate

/-- A media reference on a normalized inbound message (`MatrixInboundMedia`,
inbound.ts): always carries an `mxcUrl` when present. -/
structure MatrixInboundMedia where
  mxcUrl : Str
  contentType : Option Str
  fileName : Option Str
deriving DecidableEq, Repr

/-- A normalized inbound Matrix message (`MatrixInboundMessage`, inbound.ts).
`timestamp = 0` encodes a JS-falsy timestamp (absent or zero), matching the
truthiness tests `if (inbound.timestamp && ...)` in the source.  `body` is
already trimmed by the normalizer (`content.body?.trim() ?? ""`), so the
empty list is exactly a JS-falsy body. -/
structure MatrixInbound where
  roomId : Str
  senderId : Str
  senderDisplayName : Option Str
  eventId : Option Str
  timestamp : Nat
  body : Str
  media : Option MatrixInboundMedia
deriving DecidableEq, Repr

/-- The mutable session state of one `monitorMatrixProvider` run:
`lastEventTsByRoom` (per-conversation last-seen timestamps; an association
list observed only through `lookup`, where a prepended binding shadows older
ones like a JS object index assignment) and the pairing-request store keyed
by sender id, holding each outstanding request's code. -/
structure SessionState where
  lastEventTsByRoom : List (Str × Nat)
  pairingStore : List (Str × Nat)
deriving DecidableEq, Repr

/-- JS truthiness of a `number | undefined` timestamp value. -/
def truthyNum : Option Nat → Bool
  | some v => v != 0
  | none => false

/-- The first replay-guard condition (monitor.ts line 346):
`inbound.timestamp && lastSeen && inbound.timestamp <= lastSeen`. -/
def replayRejects (st : SessionState) (ev : MatrixInbound) : Prop :=
  ev.timestamp ≠ 0 ∧ truthyNum (st.lastEventTsByRoom.lookup ev.roomId) = true ∧
    ev.timestamp ≤ (st.lastEventTsByRoom.lookup ev.roomId).getD 0

instance (st : SessionState) (ev : MatrixInbound) : Decidable (replayRejects st ev) := by
  unfold replayRejects
  infer_instance

/-- The startup-cutoff condition (monitor.ts lines 352-357):
`inbound.timestamp && !hasSyncToken && !lastSeen && inbound.timestamp < startupCutoff`. -/
def preStartRejects (ctx : MonitorCtx) (st : SessionState) (ev : MatrixInbound) : Prop :=
  ev.timestamp ≠ 0 ∧ ctx.hasSyncToken = false ∧
    truthyNum (st.lastEventTsByRoom.lookup ev.roomId) = false ∧
    ev.timestamp < ctx.startupCutoff

instance (ctx : MonitorCtx) (st : SessionState) (ev : MatrixInbound) :
    Decidable (preStartRejects ctx st ev) := by
  unfold preStartRejects
  infer_instance

/-- `recordInboundTimestamp` (monitor.ts lines 199-214): ignore falsy
timestamps, ignore timestamps at or below the recorded last-seen (defaulting
to 0), otherwise store the new timestamp for the room. -/
def recordInboundTimestamp (lastEventTsByRoom : List (Str × Nat)) (roomId : Str)
    (timestamp : Nat) : List (Str × Nat) :=
  if timestamp = 0 then lastEventTsByRoom
  else
    let lastSeen := (lastEventTsByRoom.lookup roomId).getD 0
    if timestamp ≤ lastSeen then lastEventTsByRoom
    else (roomId, timestamp) :: lastEventTsByRoom

/-- Modelled from the spec: `upsertChannelPairingRequest` from
`../pairing/pairing-store.js` is not part of this excerpt.  Spec §6:
`upsert(channel, senderId, meta?) -> {code, created}`; §3: one outstanding
request per sender, re-contact before approval reuses the same code.  The
freshly generated code is passed in as `freshCode`. -/
def upsertChannelPairingRequest (store : List (Str × Nat)) (id : Str) (freshCode : Nat) :
    (Nat × Bool) × List (Str × Nat) :=
  match store.lookup id with
  | some code => ((code, false), store)
  | none => ((freshCode, true), (id, freshCode) :: store)

/-- Modelled from the spec: `buildPairingReply` from
`../pairing/pairing-messages.js` is not part of this excerpt.  The reply is
abstracted to the data that `handleMatrixEvent` feeds it: the `idLine`
carrying the sender's own identifier, and the pairing code. -/
structure PairingReply where
  idLine : Str
  code : Nat
deriving DecidableEq, Repr

/-- How `handleMatrixEvent` disposed of one inbound event. -/
inductive HandleOutcome
  | droppedSelf
  | droppedReplay
  | droppedPreStart
  | droppedDisabledDm
  | droppedUnauthorized (reply : Option PairingReply)
  | droppedEmptyBody
  | dispatched
deriving DecidableEq, Repr

/-- Outcome of `handleMatrixEvent` together with the updated session state. -/
structure HandleResult where
  outcome : HandleOutcome
  state : SessionState
deriving DecidableEq, Repr

/-- The placeholder computed for media messages (monitor.ts lines 463-468):
`<media:kind>` when a downloaded attachment's MIME kind is known, else
`<media:attachment>` when any media reference is present, else empty.  The
MIME-kind lookup (`mediaKindFromMime`, from `../media/constants.js`, not in
this excerpt) and the download only select between the two nonempty
placeholder forms, so a present media reference is mapped to the
attachment form. -/
def mediaPlaceholder : Option MatrixInboundMedia → Str
  | some _ => str "<media:attachment>"
  | none => []

/-- The shared tail of `handleMatrixEvent` after the policy stage
(monitor.ts lines 463-579): `bodyText = inbound.body || placeholder || ""`,
then `if (!bodyText) return;` (line 471) drops the event, and otherwise the
message is handed to backend dispatch (`dispatchReplyFromConfig`). -/
def dispatchStage (st1 : SessionState) (inbound : MatrixInbound) : HandleResult :=
  let placeholder := mediaPlaceholder inbound.media
  let bodyText := if inbound.body = [] then placeholder else inbound.body
  if bodyText = [] then ⟨.droppedEmptyBody, st1⟩
  else ⟨.dispatched, st1⟩

/-- `handleMatrixEvent` (monitor.ts lines 339-580), from the normalized
inbound message onward: drop own messages, apply the replay guard and the
startup cutoff, record the timestamp, then apply the DM policy (`disabled`
drops, non-`open` policies check the effective allow-set and, under
`pairing`, upsert a pairing request and reply only when it was freshly
created); an authorized event then goes through `dispatchStage`, which
drops it when the body and the media placeholder are both empty (line 471)
and otherwise dispatches it to the backend.  `joinedCount` is
`payload.room.getJoinedMemberCount()`; `freshCode` is the code the pairing
store would generate for a new request. -/
def handleMatrixEvent (ctx : MonitorCtx) (st : SessionState) (inbound : MatrixInbound)
    (joinedCount : Nat) (freshCode : Nat) : HandleResult :=
  if inbound.senderId = ctx.selfId then ⟨.droppedSelf, st⟩
  else if replayRejects st inbound then ⟨.droppedReplay, st⟩
  else if preStartRejects ctx st inbound then ⟨.droppedPreStart, st⟩
  else
    let st1 : SessionState :=
      { st with lastEventTsByRoom :=
          recordInboundTimestamp st.lastEventTsByRoom inbound.roomId inbound.timestamp }
    let isDirect := joinedCount ≤ 2
    if isDirect ∧ ctx.dmPolicy = DmPolicy.disabled then ⟨.droppedDisabledDm, st1⟩
    else if isDirect ∧ ctx.dmPolicy ≠ DmPolicy.openPolicy then
      if isAllowed ctx inbound.senderId = false then
        if ctx.dmPolicy = DmPolicy.pairing then
          let res := upsertChannelPairingRequest st1.pairingStore inbound.senderId freshCode
          let st2 : SessionState := { st1 with pairingStore := res.2 }
          if res.1.2 then
            ⟨.droppedUnauthorized (some
              { idLine := str "Your Matrix user id: " ++ inbound.senderId,
                code := res.1.1 }), st2⟩
          else ⟨.droppedUnauthorized none, st2⟩
        else ⟨.droppedUnauthorized none, st1⟩
      else dispatchStage st1 inbound
    else dispatchStage st1 inbound

/-- Fold of `handleMatrixEvent` over a sequence of inbound deliveries, each
carrying its joined-member count and fresh pairing code; the state produced
by one run of the account's session on that sequence. -/
def handleEvents (ctx : MonitorCtx) (st : SessionState) :
    List (MatrixInbound × Nat × Nat) → SessionState
  | [] => st
  | (ev, joined, code) :: rest =>
    handleEvents ctx (handleMatrixEvent ctx st ev joined code).state rest

/-- Reconnect-backoff configuration (`SYNC_BACKOFF`, client.ts lines 31-36). -/
structure BackoffConfig where
  initialMs : ℚ
  maxMs : ℚ
  factor : ℚ
  jitter : ℚ
deriving DecidableEq, Repr

/-- The constants of client.ts: initialMs 1500, maxMs 30000, factor 1.8,
jitter 0.25. -/
def SYNC_BACKOFF : BackoffConfig :=
  { initialMs := 1500, maxMs := 30000, factor := 9 / 5, jitter := 1 / 4 }

/-- Modelled from the spec: `computeBackoff` from `../infra/backoff.js` is
not part of this excerpt.  Spec §4.1: exponential backoff with initial delay,
multiplicative factor and capped maximum delay; this is the deterministic
delay for a given (1-based) attempt number. -/
def computeBackoff (cfg : BackoffConfig) (attempt : Nat) : ℚ :=
  min cfg.maxMs (cfg.initialMs * cfg.factor ^ (attempt - 1))

/-- Modelled from the spec: randomized jitter applied multiplicatively to the
deterministic delay, with the jitter sample `r` abstracted as a parameter. -/
def computeBackoffJittered (cfg : BackoffConfig) (attempt : Nat) (r : ℚ) : ℚ :=
  computeBackoff cfg attempt * (1 + cfg.jitter * r)

/-- The sync-state transitions that drive the restart-attempt counter in
`startMatrixSync` (client.ts lines 314-387). -/
inductive SyncStateEvt
  | errorState
  | prepared
  | syncing
  | other
deriving DecidableEq, Repr

/-- The restart-attempt counter transition of `startMatrixSync`:
`scheduleRestart` increments it on an error-driven restart (client.ts line
332); `onSync` resets it to zero on `Prepared` or `Syncing` (line 385). -/
def restartAttemptAfter (attempt : Nat) : SyncStateEvt → Nat
  | .errorState => attempt + 1
  | .prepared => 0
  | .syncing => 0
  | .other => attempt

/-- The session states whose recorded last-seen timestamps are all positive.
`recordInboundTimestamp` never stores 0, so every state reachable from a
checkpoint written by this code satisfies it. -/
def positiveTimestamps (st : SessionState) : Prop :=
  ∀ r v, st.lastEventTsByRoom.lookup r = some v → 0 < v

/-- A sender the policy stage of `handleMatrixEvent` lets through to backend
dispatch: not a direct conversation, or a policy/allow-set combination that
authorizes the sender. -/
def policyAuthorized (ctx : MonitorCtx) (senderId : Str) (joinedCount : Nat) : Prop :=
  (joinedCount ≤ 2 → ctx.dmPolicy ≠ DmPolicy.disabled) ∧
  (joinedCount ≤ 2 → ctx.dmPolicy ≠ DmPolicy.openPolicy → isAllowed ctx senderId = true)

instance (ctx : MonitorCtx) (senderId : Str) (joinedCount : Nat) :
    Decidable (policyAuthorized ctx senderId joinedCount) := by
  unfold policyAuthorized
  infer_instance

/-! ### Helper lemmas -/

theorem dispatchStage_state (st : SessionState) (ev : MatrixInbound) :
    (dispatchStage st ev).state = st := by
  simp only [dispatchStage]
  split_ifs <;> rfl

theorem dispatchStage_outcome_cases (st : SessionState) (ev : MatrixInbound) :
    (dispatchStage st ev).outcome = .droppedEmptyBody ∨
      (dispatchStage st ev).outcome = .dispatched := by
  simp only [dispatchStage]
  split_ifs <;> simp

theorem dispatchStage_ne_droppedReplay (st : SessionState) (ev : MatrixInbound) :
    (dispatchStage st ev).outcome ≠ .droppedReplay := by
  rcases dispatchStage_outcome_cases st ev with h | h <;> simp [h]

theorem dispatchStage_ne_droppedPreStart (st : SessionState) (ev : MatrixInbound) :
    (dispatchStage st ev).outcome ≠ .droppedPreStart := by
  rcases dispatchStage_outcome_cases st ev with h | h <;> simp [h]

theorem dispatchStage_ne_droppedUnauthorized (st : SessionState) (ev : MatrixInbound)
    (rep : Option PairingReply) :
    (dispatchStage st ev).outcome ≠ .droppedUnauthorized rep := by
  rcases dispatchStage_outcome_cases st ev with h | h <;> simp [h]

theorem dispatchStage_dispatched (st : SessionState) (ev : MatrixInbound)
    (h : ev.body ≠ [] ∨ ev.media ≠ none) :
    dispatchStage st ev = ⟨.dispatched, st⟩ := by
  simp only [dispatchStage]
  by_cases hb : ev.body = []
  · have hm : ev.media ≠ none := by
      rcases h with h | h
      · exact absurd hb h
      · exact h
    rw [if_pos hb]
    cases hmed : ev.media with
    | none => exact absurd hmed hm
    | some m => simp [mediaPlaceholder, str]
  · rw [if_neg hb, if_neg hb]

theorem dispatchStage_empty (st : SessionState) (ev : MatrixInbound)
    (hb : ev.body = []) (hm : ev.media = none) :
    dispatchStage st ev = ⟨.droppedEmptyBody, st⟩ := by
  simp [dispatchStage, hb, hm, mediaPlaceholder]

theorem lookup_record_mono (m : List (Str × Nat)) (roomId : Str) (timestamp : Nat)
    (r : Str) (v : Nat) (h : m.lookup r = some v) :
    ∃ v', (recordInboundTimestamp m roomId timestamp).lookup r = some v' ∧ v ≤ v' := by
  simp only [recordInboundTimestamp]
  split_ifs with h0 hle
  · exact ⟨v, h, le_refl v⟩
  · exact ⟨v, h, le_refl v⟩
  · by_cases hr : r = roomId
    · subst hr
      refine ⟨timestamp, by simp [List.lookup], ?_⟩
      rw [h] at hle
      simp at hle
      omega
    · exact ⟨v, by simp [List.lookup, beq_eq_false_iff_ne.mpr hr, h], le_refl v⟩

theorem handle_lastTs_cases (ctx : MonitorCtx) (st : SessionState) (ev : MatrixInbound)
    (joined code : Nat) :
    (handleMatrixEvent ctx st ev joined code).state.lastEventTsByRoom = st.lastEventTsByRoom ∨
    (handleMatrixEvent ctx st ev joined code).state.lastEventTsByRoom =
      recordInboundTimestamp st.lastEventTsByRoom ev.roomId ev.timestamp := by
  simp only [handleMatrixEvent]
  split_ifs <;> simp [dispatchStage_state]

theorem handle_lastTs_mono (ctx : MonitorCtx) (st : SessionState) (ev : MatrixInbound)
    (joined code : Nat) (r : Str) (v : Nat)
    (h : st.lastEventTsByRoom.lookup r = some v) :
    ∃ v', (handleMatrixEvent ctx st ev joined code).state.lastEventTsByRoom.lookup r = some v' ∧
      v ≤ v' := by
  rcases handle_lastTs_cases ctx st ev joined code with hc | hc
  · exact ⟨v, by rw [hc, h], le_refl v⟩
  · rw [hc]
    exact lookup_record_mono _ _ _ _ _ h

/-! ### Claims -/

/-- Claim C9: every normalized inbound event whose senderId equals the
session's own logged-in user id is dropped before the replay guard, policy
evaluation, and backend dispatch: the handler returns `droppedSelf` with the
session state untouched. -/
theorem C9_self_message_suppression (ctx : MonitorCtx) (st : SessionState)
    (ev : MatrixInbound) (joined code : Nat) (h : ev.senderId = ctx.selfId) :
    handleMatrixEvent ctx st ev joined code = ⟨.droppedSelf, st⟩ := by
  simp [handleMatrixEvent, h]

/-- Witness for C9 at a concrete self-sent event. -/
theorem C9_self_message_suppression_witness :
    handleMatrixEvent
      ⟨str "@bot:example.org", true, 0, .openPolicy, [], []⟩ ⟨[], []⟩
      ⟨str "!r", str "@bot:example.org", none, none, 5, str "hi", none⟩ 2 0 =
      ⟨.droppedSelf, ⟨[], []⟩⟩ :=
  C9_self_message_suppression _ _ _ 2 0 (by decide)

/-- Claim C3: for every conversation `c`, the value `lastEventTsByRoom[c]`
held by the session is monotonically non-decreasing across the processing of
any sequence of inbound events during one run: no operation ever lowers it. -/
theorem C3_lastSeen_monotone (ctx : MonitorCtx) (st : SessionState)
    (evs : List (MatrixInbound × Nat × Nat)) (r : Str) (v : Nat)
    (h : st.lastEventTsByRoom.lookup r = some v) :
    ∃ v', (handleEvents ctx st evs).lastEventTsByRoom.lookup r = some v' ∧ v ≤ v' := by
  induction evs generalizing st v with
  | nil => exact ⟨v, h, le_refl v⟩
  | cons e rest ih =>
    obtain ⟨v1, h1, hv1⟩ := handle_lastTs_mono ctx st e.1 e.2.1 e.2.2 r v h
    obtain ⟨v2, h2, hv2⟩ := ih _ _ h1
    exact ⟨v2, h2, le_trans hv1 hv2⟩

/-- Witness for C3: a recorded value survives, not lowered, across a
two-event sequence that includes a stale event. -/
theorem C3_lastSeen_monotone_witness :
    ∃ v', (handleEvents ⟨str "@bot:x", true, 0, .openPolicy, [], []⟩
        ⟨[(str "!r", 1000)], []⟩
        [(⟨str "!r", str "@a:x", none, none, 900, str "old", none⟩, 3, 0),
         (⟨str "!r", str "@a:x", none, none, 1500, str "new", none⟩, 3, 0)]).lastEventTsByRoom.lookup
        (str "!r") = some v' ∧ 1000 ≤ v' :=
  C3_lastSeen_monotone _ _ _ _ 1000 (by decide)

/-- Claim C5: when the account's dmPolicy is `disabled`, every inbound
direct-conversation message (joined member count at most 2) produces no
backend dispatch and no outbound pairing reply, and leaves the pairing store
untouched, regardless of the allow-list contents. -/
theorem C5_disabled_drops_dms (ctx : MonitorCtx) (st : SessionState)
    (ev : MatrixInbound) (joined code : Nat)
    (hpol : ctx.dmPolicy = DmPolicy.disabled) (hdm : joined ≤ 2) :
    (handleMatrixEvent ctx st ev joined code).outcome ≠ .dispatched ∧
    (∀ rep, (handleMatrixEvent ctx st ev joined code).outcome ≠ .droppedUnauthorized rep) ∧
    (handleMatrixEvent ctx st ev joined code).state.pairingStore = st.pairingStore := by
  simp only [handleMatrixEvent, hpol]
  split_ifs <;> simp_all

/-- Witness for C5: a direct message from an allow-listed sender is still
dropped under `disabled`. -/
theorem C5_disabled_drops_dms_witness :
    (handleMatrixEvent ⟨str "@bot:x", true, 0, .disabled, [str "@bob:example.org"], []⟩
        ⟨[], []⟩ ⟨str "!r", str "@bob:example.org", none, none, 5, str "hi", none⟩ 2 0).outcome ≠
      .dispatched ∧
    (∀ rep, (handleMatrixEvent ⟨str "@bot:x", true, 0, .disabled, [str "@bob:example.org"], []⟩
        ⟨[], []⟩ ⟨str "!r", str "@bob:example.org", none, none, 5, str "hi", none⟩ 2 0).outcome ≠
      .droppedUnauthorized rep) ∧
    (handleMatrixEvent ⟨str "@bot:x", true, 0, .disabled, [str "@bob:example.org"], []⟩
        ⟨[], []⟩ ⟨str "!r", str "@bob:example.org", none, none, 5, str "hi", none⟩ 2 0).state.pairingStore =
      (⟨[], []⟩ : SessionState).pairingStore :=
  C5_disabled_drops_dms _ _ _ 2 0 (by decide) (by decide)

theorem outcome_preStart_iff (ctx : MonitorCtx) (st : SessionState) (ev : MatrixInbound)
    (joined code : Nat) :
    (handleMatrixEvent ctx st ev joined code).outcome = .droppedPreStart ↔
      (ev.senderId ≠ ctx.selfId ∧ ¬ replayRejects st ev ∧ preStartRejects ctx st ev) := by
  simp only [handleMatrixEvent]
  split_ifs <;> simp_all [dispatchStage_ne_droppedPreStart]

theorem record_preserves_positive (m : List (Str × Nat)) (roomId : Str) (timestamp : Nat)
    (h : ∀ r v, m.lookup r = some v → 0 < v) :
    ∀ r v, (recordInboundTimestamp m roomId timestamp).lookup r = some v → 0 < v := by
  intro r v hv
  simp only [recordInboundTimestamp] at hv
  split_ifs at hv with h0 hle
  · exact h r v hv
  · exact h r v hv
  · by_cases hr : r = roomId
    · subst hr
      simp [List.lookup] at hv
      omega
    · rw [show (List.lookup r ((roomId, timestamp) :: m)) =
          List.lookup r m from by simp [List.lookup, beq_eq_false_iff_ne.mpr hr]] at hv
      exact h r v hv

theorem handle_preserves_positive (ctx : MonitorCtx) (st : SessionState) (ev : MatrixInbound)
    (joined code : Nat) (h : positiveTimestamps st) :
    positiveTimestamps (handleMatrixEvent ctx st ev joined code).state := by
  intro r v hv
  rcases handle_lastTs_cases ctx st ev joined code with hc | hc
  · rw [hc] at hv
    exact h r v hv
  · rw [hc] at hv
    exact record_preserves_positive _ _ _ h r v hv

/-- Claim C10 (amended): an inbound event whose normalized timestamp is
absent or 0 skips both replay-guard checks and records nothing to the
checkpoint; when the policy stage authorizes it and it carries a nonempty
body or a media reference, it is dispatched with the whole session state
untouched (hence dispatched again on every re-delivery).  (As stated, the
claim fails for authorized events whose body and media are both empty: the
post-authorization check `if (!bodyText) return` at monitor.ts line 471
drops them before backend dispatch — see the counterexample.) -/
theorem C10_zero_timestamp_bypasses_guard (ctx : MonitorCtx) (st : SessionState)
    (ev : MatrixInbound) (joined code : Nat)
    (ht : ev.timestamp = 0) (hs : ev.senderId ≠ ctx.selfId) :
    (handleMatrixEvent ctx st ev joined code).outcome ≠ .droppedReplay ∧
    (handleMatrixEvent ctx st ev joined code).outcome ≠ .droppedPreStart ∧
    (handleMatrixEvent ctx st ev joined code).state.lastEventTsByRoom = st.lastEventTsByRoom ∧
    (policyAuthorized ctx ev.senderId joined → ev.body ≠ [] ∨ ev.media ≠ none →
      handleMatrixEvent ctx st ev joined code = ⟨.dispatched, st⟩) := by
  have hrep : ¬ replayRejects st ev := fun h => h.1 ht
  have hpre : ¬ preStartRejects ctx st ev := fun h => h.1 ht
  have hrec : recordInboundTimestamp st.lastEventTsByRoom ev.roomId ev.timestamp =
      st.lastEventTsByRoom := by
    simp [recordInboundTimestamp, ht]
  have hst1 : ({ st with lastEventTsByRoom :=
      recordInboundTimestamp st.lastEventTsByRoom ev.roomId ev.timestamp } : SessionState) = st := by
    rw [hrec]
  refine ⟨?_, ?_, ?_, ?_⟩
  · simp only [handleMatrixEvent, if_neg hs, if_neg hrep, if_neg hpre]
    split_ifs <;> simp [hrec, dispatchStage_ne_droppedReplay]
  · simp only [handleMatrixEvent, if_neg hs, if_neg hrep, if_neg hpre]
    split_ifs <;> simp [hrec, dispatchStage_ne_droppedPreStart]
  · simp only [handleMatrixEvent, if_neg hs, if_neg hrep, if_neg hpre]
    split_ifs <;> simp [hrec, dispatchStage_state]
  · intro hauth hbody
    simp only [handleMatrixEvent, if_neg hs, if_neg hrep, if_neg hpre]
    by_cases hdir : joined ≤ 2
    · have hnd := hauth.1 hdir
      by_cases hop : ctx.dmPolicy = DmPolicy.openPolicy
      · rw [if_neg (by simp [hop]), if_neg (by simp [hop]), hst1]
        exact dispatchStage_dispatched st ev hbody
      · have hall := hauth.2 hdir hop
        rw [if_neg (fun h => hnd h.2), if_pos ⟨hdir, hop⟩, if_neg (by simp [hall]), hst1]
        exact dispatchStage_dispatched st ev hbody
    · rw [if_neg (fun h => hdir h.1), if_neg (fun h => hdir h.1), hst1]
      exact dispatchStage_dispatched st ev hbody

/-- Witness for C10 (amended): a timestamp-less nonempty-body event in a
group room with a stale last-seen entry is dispatched, with the state
untouched. -/
theorem C10_zero_timestamp_bypasses_guard_witness :
    (handleMatrixEvent ⟨str "@bot:x", false, 1000, .pairing, [], []⟩
        ⟨[(str "!other", 99)], []⟩
        ⟨str "!room", str "@bob:example.org", none, none, 0, str "hi", none⟩ 3 0).outcome ≠
      .droppedReplay ∧
    (handleMatrixEvent ⟨str "@bot:x", false, 1000, .pairing, [], []⟩
        ⟨[(str "!other", 99)], []⟩
        ⟨str "!room", str "@bob:example.org", none, none, 0, str "hi", none⟩ 3 0).outcome ≠
      .droppedPreStart ∧
    (handleMatrixEvent ⟨str "@bot:x", false, 1000, .pairing, [], []⟩
        ⟨[(str "!other", 99)], []⟩
        ⟨str "!room", str "@bob:example.org", none, none, 0, str "hi", none⟩ 3 0).state.lastEventTsByRoom =
      (⟨[(str "!other", 99)], []⟩ : SessionState).lastEventTsByRoom ∧
    (policyAuthorized ⟨str "@bot:x", false, 1000, .pairing, [], []⟩ (str "@bob:example.org") 3 →
      (⟨str "!room", str "@bob:example.org", none, none, 0, str "hi", none⟩ :
          MatrixInbound).body ≠ [] ∨
        (⟨str "!room", str "@bob:example.org", none, none, 0, str "hi", none⟩ :
          MatrixInbound).media ≠ none →
      handleMatrixEvent ⟨str "@bot:x", false, 1000, .pairing, [], []⟩
        ⟨[(str "!other", 99)], []⟩
        ⟨str "!room", str "@bob:example.org", none, none, 0, str "hi", none⟩ 3 0 =
        ⟨.dispatched, ⟨[(str "!other", 99)], []⟩⟩) :=
  C10_zero_timestamp_bypasses_guard _ _ _ 3 0 (by decide) (by decide)

/-- Counterexample to C10 as stated: a timestamp-0 event in a group room is
authorized by the policy stage, yet with an empty body and no media it is
dropped by `if (!bodyText) return` (monitor.ts line 471) instead of being
dispatched to the backend. -/
theorem C10_counterexample :
    policyAuthorized ⟨str "@bot:x", true, 0, .openPolicy, [], []⟩
      (str "@bob:example.org") 3 ∧
    (handleMatrixEvent ⟨str "@bot:x", true, 0, .openPolicy, [], []⟩ ⟨[], []⟩
        ⟨str "!room", str "@bob:example.org", none, none, 0, str "", none⟩ 3 0).outcome =
      .droppedEmptyBody ∧
    (handleMatrixEvent ⟨str "@bot:x", true, 0, .openPolicy, [], []⟩ ⟨[], []⟩
        ⟨str "!room", str "@bob:example.org", none, none, 0, str "", none⟩ 3 0).outcome ≠
      .dispatched := by decide

/-- Claim C1 (amended): once an event with timestamp `t1 > 0` has been
accepted and recorded (`lastSeen[conversation] >= t1`), every later inbound
event for the same conversation with a present (nonzero) timestamp
`t <= t1` is dropped before policy evaluation and backend dispatch, with the
session state unchanged.  (As stated, the claim fails for events whose
normalized timestamp is absent or 0, which bypass the guard — see the
counterexample.) -/
theorem C1_replay_rejection (ctx : MonitorCtx) (st : SessionState) (ev : MatrixInbound)
    (joined code t1 v : Nat)
    (h1 : 0 < t1) (hrec : st.lastEventTsByRoom.lookup ev.roomId = some v) (hv : t1 ≤ v)
    (ht0 : ev.timestamp ≠ 0) (ht : ev.timestamp ≤ t1) :
    ((handleMatrixEvent ctx st ev joined code).outcome = .droppedSelf ∨
     (handleMatrixEvent ctx st ev joined code).outcome = .droppedReplay) ∧
    (handleMatrixEvent ctx st ev joined code).state = st := by
  by_cases hs : ev.senderId = ctx.selfId
  · simp [handleMatrixEvent, hs]
  · have hrep : replayRejects st ev := by
      refine ⟨ht0, ?_, ?_⟩
      · rw [hrec]
        simp [truthyNum]
        omega
      · rw [hrec]
        simp only [Option.getD_some]
        omega
    simp [handleMatrixEvent, hs, hrep]

/-- Witness for C1 (amended): a checkpoint at 1000 rejects a later event
timestamped 900 and leaves the state alone. -/
theorem C1_replay_rejection_witness :
    ((handleMatrixEvent ⟨str "@bot:x", true, 0, .openPolicy, [], []⟩
        ⟨[(str "!room", 1000)], []⟩
        ⟨str "!room", str "@bob:example.org", none, none, 900, str "old", none⟩ 3 0).outcome =
      .droppedSelf ∨
     (handleMatrixEvent ⟨str "@bot:x", true, 0, .openPolicy, [], []⟩
        ⟨[(str "!room", 1000)], []⟩
        ⟨str "!room", str "@bob:example.org", none, none, 900, str "old", none⟩ 3 0).outcome =
      .droppedReplay) ∧
    (handleMatrixEvent ⟨str "@bot:x", true, 0, .openPolicy, [], []⟩
        ⟨[(str "!room", 1000)], []⟩
        ⟨str "!room", str "@bob:example.org", none, none, 900, str "old", none⟩ 3 0).state =
      ⟨[(str "!room", 1000)], []⟩ :=
  C1_replay_rejection _ _ _ 3 0 1000 1000 (by decide) (by decide) (by decide) (by decide)
    (by decide)

/-- Counterexample to C1 as stated: after an event timestamped 1000 is
accepted and recorded for `!room`, a later event for the same conversation
with timestamp `t = 0 <= 1000` is not rejected — it is dispatched, because
the guard `inbound.timestamp && lastSeen && inbound.timestamp <= lastSeen`
short-circuits on a falsy timestamp. -/
theorem C1_counterexample :
    (handleMatrixEvent ⟨str "@bot:x", true, 0, .openPolicy, [], []⟩ ⟨[], []⟩
        ⟨str "!room", str "@bob:example.org", none, none, 1000, str "hi", none⟩ 3 0).outcome =
      .dispatched ∧
    (handleMatrixEvent ⟨str "@bot:x", true, 0, .openPolicy, [], []⟩ ⟨[], []⟩
        ⟨str "!room", str "@bob:example.org", none, none, 1000, str "hi", none⟩ 3
        0).state.lastEventTsByRoom.lookup (str "!room") = some 1000 ∧
    (handleMatrixEvent ⟨str "@bot:x", true, 0, .openPolicy, [], []⟩
        (handleMatrixEvent ⟨str "@bot:x", true, 0, .openPolicy, [], []⟩ ⟨[], []⟩
          ⟨str "!room", str "@bob:example.org", none, none, 1000, str "hi", none⟩ 3 0).state
        ⟨str "!room", str "@bob:example.org", none, none, 0, str "again", none⟩ 3 0).outcome =
      .dispatched := by decide

/-- Claim C2 (amended): when the session started with no persisted resync
token, the conversation has no recorded last-seen entry, the event's
timestamp is present (nonzero) and predates the startup cutoff, the event is
rejected by the startup-cutoff check; if any of these conditions fails, this
check does not reject it.  Stated for session states whose recorded
last-seen values are all positive, the invariant `recordInboundTimestamp`
maintains (see `record_preserves_positive`). -/
theorem C2_startup_cutoff (ctx : MonitorCtx) (st : SessionState) (ev : MatrixInbound)
    (joined code : Nat)
    (hwf : positiveTimestamps st) (hs : ev.senderId ≠ ctx.selfId) :
    ((ev.timestamp ≠ 0 ∧ ctx.hasSyncToken = false ∧
        st.lastEventTsByRoom.lookup ev.roomId = none ∧ ev.timestamp < ctx.startupCutoff) →
      (handleMatrixEvent ctx st ev joined code).outcome = .droppedPreStart) ∧
    (¬(ev.timestamp ≠ 0 ∧ ctx.hasSyncToken = false ∧
        st.lastEventTsByRoom.lookup ev.roomId = none ∧ ev.timestamp < ctx.startupCutoff) →
      (handleMatrixEvent ctx st ev joined code).outcome ≠ .droppedPreStart) := by
  have hiff : preStartRejects ctx st ev ↔
      (ev.timestamp ≠ 0 ∧ ctx.hasSyncToken = false ∧
        st.lastEventTsByRoom.lookup ev.roomId = none ∧ ev.timestamp < ctx.startupCutoff) := by
    unfold preStartRejects
    constructor
    · rintro ⟨a, b, c, d⟩
      refine ⟨a, b, ?_, d⟩
      cases hl : st.lastEventTsByRoom.lookup ev.roomId with
      | none => rfl
      | some v =>
        rw [hl] at c
        have hv := hwf _ _ hl
        simp [truthyNum] at c
        omega
    · rintro ⟨a, b, c, d⟩
      refine ⟨a, b, ?_, d⟩
      rw [c]
      rfl
  constructor
  · intro hc
    have hpre : preStartRejects ctx st ev := hiff.mpr hc
    have hrep : ¬ replayRejects st ev := by
      rintro ⟨_, htr, _⟩
      rw [hc.2.2.1] at htr
      simp [truthyNum] at htr
    simp [handleMatrixEvent, hs, hrep, hpre]
  · intro hnc hout
    exact hnc (hiff.mp ((outcome_preStart_iff ctx st ev joined code).mp hout).2.2)

/-- Witness for C2 (amended): with no resync token, no last-seen entry and a
nonzero timestamp 50 before the cutoff 1000, the event is dropped by the
startup-cutoff check. -/
theorem C2_startup_cutoff_witness :
    (handleMatrixEvent ⟨str "@bot:x", false, 1000, .openPolicy, [], []⟩ ⟨[], []⟩
        ⟨str "!room", str "@bob:example.org", none, none, 50, str "hi", none⟩ 3 0).outcome =
      .droppedPreStart :=
  (C2_startup_cutoff ⟨str "@bot:x", false, 1000, .openPolicy, [], []⟩ ⟨[], []⟩
      ⟨str "!room", str "@bob:example.org", none, none, 50, str "hi", none⟩ 3 0
      (fun r v h => by simp [List.lookup] at h) (by decide)).1
    ⟨by decide, by decide, by decide, by decide⟩

/-- Counterexample to C2 as stated: no resync token, no last-seen entry for
the conversation, and a (absent-encoded) timestamp 0 strictly before the
startup cutoff 1000 — yet the event is dispatched, because the check
short-circuits on a falsy timestamp. -/
theorem C2_counterexample :
    (⟨str "@bot:x", false, 1000, .openPolicy, [], []⟩ : MonitorCtx).hasSyncToken = false ∧
    (⟨[], []⟩ : SessionState).lastEventTsByRoom.lookup (str "!room") = none ∧
    (⟨str "!room", str "@bob:example.org", none, none, 0, str "hi", none⟩ :
        MatrixInbound).timestamp <
      (⟨str "@bot:x", false, 1000, .openPolicy, [], []⟩ : MonitorCtx).startupCutoff ∧
    (handleMatrixEvent ⟨str "@bot:x", false, 1000, .openPolicy, [], []⟩ ⟨[], []⟩
        ⟨str "!room", str "@bob:example.org", none, none, 0, str "hi", none⟩ 3 0).outcome =
      .dispatched := by decide

theorem mem_jsSetDedupGo (a : Str) (l : List Str) :
    ∀ seen, a ∈ jsSetDedupGo seen l ↔ a ∈ l ∧ a ∉ seen := by
  induction l with
  | nil =>
    intro seen
    simp [jsSetDedupGo]
  | cons x xs ih =>
    intro seen
    by_cases hx : x ∈ seen
    · simp only [jsSetDedupGo, if_pos hx, ih seen, List.mem_cons]
      constructor
      · rintro ⟨h1, h2⟩
        exact ⟨Or.inr h1, h2⟩
      · rintro ⟨h | h, h2⟩
        · exact absurd (h ▸ hx) h2
        · exact ⟨h, h2⟩
    · simp only [jsSetDedupGo, if_neg hx, List.mem_cons, ih (x :: seen)]
      constructor
      · rintro (h | ⟨h1, h2⟩)
        · subst h
          exact ⟨Or.inl rfl, hx⟩
        · exact ⟨Or.inr h1, (not_or.mp h2).2⟩
      · rintro ⟨h | h, h2⟩
        · exact Or.inl h
        · by_cases ha : a = x
          · exact Or.inl ha
          · exact Or.inr ⟨h, not_or.mpr ⟨ha, h2⟩⟩

theorem mem_jsSetDedup (a : Str) (l : List Str) : a ∈ jsSetDedup l ↔ a ∈ l := by
  simp [jsSetDedup, mem_jsSetDedupGo]

theorem isAllowed_iff (ctx : MonitorCtx) (s : Str) :
    isAllowed ctx s = true ↔
      str "*" ∈ resolveEffectiveAllowFrom ctx ∨
        normalizeAllowEntry s ∈ resolveEffectiveAllowFrom ctx := by
  simp [isAllowed]

/-- Claim C6 (amended): under `allowlist` or `pairing`, a direct-conversation
sender that reaches the policy stage with a message carrying a nonempty body
or a media reference is dispatched to the backend iff the effective
allow-set contains the wildcard `"*"` or the case-normalized,
prefix-stripped sender id; and the effective allow-set is exactly the union
of the normalized configured allow-list and the pairing-store approved list.
(As stated, the claim fails for an approved sender's message with empty body
and no media, dropped after authorization by `if (!bodyText) return` at
monitor.ts line 471 — see the counterexample.) -/
theorem C6_effective_allow_membership (ctx : MonitorCtx) (st : SessionState)
    (ev : MatrixInbound) (joined code : Nat)
    (hpol : ctx.dmPolicy = DmPolicy.allowlist ∨ ctx.dmPolicy = DmPolicy.pairing)
    (hj : joined ≤ 2) (hs : ev.senderId ≠ ctx.selfId)
    (hrep : ¬ replayRejects st ev) (hpre : ¬ preStartRejects ctx st ev)
    (hbody : ev.body ≠ [] ∨ ev.media ≠ none) :
    ((handleMatrixEvent ctx st ev joined code).outcome = .dispatched ↔
      str "*" ∈ resolveEffectiveAllowFrom ctx ∨
        normalizeAllowEntry ev.senderId ∈ resolveEffectiveAllowFrom ctx) ∧
    (∀ x, x ∈ resolveEffectiveAllowFrom ctx ↔
      x ∈ resolveAllowFrom ctx.allowFrom ∨ x ∈ ctx.storeAllow) := by
  constructor
  · rw [← isAllowed_iff]
    simp only [handleMatrixEvent, if_neg hs, if_neg hrep, if_neg hpre]
    have hnd : ¬(joined ≤ 2 ∧ ctx.dmPolicy = DmPolicy.disabled) := by
      rcases hpol with h | h <;> simp [h]
    have hno : joined ≤ 2 ∧ ctx.dmPolicy ≠ DmPolicy.openPolicy := by
      rcases hpol with h | h <;> exact ⟨hj, by simp [h]⟩
    rw [if_neg hnd, if_pos hno]
    by_cases hal : isAllowed ctx ev.senderId = false
    · rw [if_pos hal]
      split_ifs <;> simp [hal]
    · rw [if_neg hal]
      simp only [Bool.not_eq_false] at hal
      rw [dispatchStage_dispatched _ ev hbody]
      simp [hal]
  · intro x
    rw [resolveEffectiveAllowFrom, mem_jsSetDedup, List.mem_append]

/-- Witness for C6 (amended): a sender listed (with protocol prefix and
mixed case) in the configured allow-list, sending a nonempty body, is
dispatched under `allowlist` policy. -/
theorem C6_effective_allow_membership_witness :
    ((handleMatrixEvent
        ⟨str "@bot:x", true, 0, .allowlist, [str "MATRIX:@Bob:Example.org"], []⟩ ⟨[], []⟩
        ⟨str "!room", str "@bob:example.org", none, none, 5, str "hi", none⟩ 2 0).outcome =
      .dispatched ↔
      str "*" ∈ resolveEffectiveAllowFrom
          ⟨str "@bot:x", true, 0, .allowlist, [str "MATRIX:@Bob:Example.org"], []⟩ ∨
        normalizeAllowEntry (str "@bob:example.org") ∈ resolveEffectiveAllowFrom
          ⟨str "@bot:x", true, 0, .allowlist, [str "MATRIX:@Bob:Example.org"], []⟩) ∧
    (∀ x, x ∈ resolveEffectiveAllowFrom
        ⟨str "@bot:x", true, 0, .allowlist, [str "MATRIX:@Bob:Example.org"], []⟩ ↔
      x ∈ resolveAllowFrom [str "MATRIX:@Bob:Example.org"] ∨ x ∈ ([] : List Str)) :=
  C6_effective_allow_membership _ _ _ 2 0 (Or.inl rfl) (by decide) (by decide) (by decide)
    (by decide) (Or.inl (by decide))

/-- Counterexample to C6 as stated: the sender is in the effective allow-set,
but their direct message with empty body and no media does not reach backend
dispatch — it is dropped by `if (!bodyText) return` (monitor.ts line 471). -/
theorem C6_counterexample :
    normalizeAllowEntry (str "@bob:example.org") ∈ resolveEffectiveAllowFrom
      ⟨str "@bot:x", true, 0, .allowlist, [str "@bob:example.org"], []⟩ ∧
    (handleMatrixEvent ⟨str "@bot:x", true, 0, .allowlist, [str "@bob:example.org"], []⟩
        ⟨[], []⟩ ⟨str "!room", str "@bob:example.org", none, none, 5, str "", none⟩ 2
        0).outcome = .droppedEmptyBody ∧
    (handleMatrixEvent ⟨str "@bot:x", true, 0, .allowlist, [str "@bob:example.org"], []⟩
        ⟨[], []⟩ ⟨str "!room", str "@bob:example.org", none, none, 5, str "", none⟩ 2
        0).outcome ≠ .dispatched := by decide

/-- Claim C4: under `pairing` policy, the first unauthorized direct message
from an unknown sender creates one pairing request (stored under the
sender's id with the generated code) and produces exactly one pairing reply
carrying the sender's own identifier and that code; a second unauthorized
message from the same sender while the request is outstanding produces no
further reply and leaves the pairing store unchanged; neither message is
dispatched to the backend. -/
theorem C4_pairing_exactly_once (ctx : MonitorCtx) (st : SessionState)
    (ev1 ev2 : MatrixInbound) (j1 j2 code1 code2 : Nat)
    (hpol : ctx.dmPolicy = DmPolicy.pairing)
    (hj1 : j1 ≤ 2) (hj2 : j2 ≤ 2)
    (hs1 : ev1.senderId ≠ ctx.selfId) (hsame : ev2.senderId = ev1.senderId)
    (hall : isAllowed ctx ev1.senderId = false)
    (hrep1 : ¬ replayRejects st ev1) (hpre1 : ¬ preStartRejects ctx st ev1)
    (hpair : st.pairingStore.lookup ev1.senderId = none)
    (hrep2 : ¬ replayRejects (handleMatrixEvent ctx st ev1 j1 code1).state ev2)
    (hpre2 : ¬ preStartRejects ctx (handleMatrixEvent ctx st ev1 j1 code1).state ev2) :
    (handleMatrixEvent ctx st ev1 j1 code1).outcome =
      .droppedUnauthorized (some ⟨str "Your Matrix user id: " ++ ev1.senderId, code1⟩) ∧
    (handleMatrixEvent ctx st ev1 j1 code1).state.pairingStore.lookup ev1.senderId =
      some code1 ∧
    ev1.senderId <:+ str "Your Matrix user id: " ++ ev1.senderId ∧
    (handleMatrixEvent ctx (handleMatrixEvent ctx st ev1 j1 code1).state ev2 j2 code2).outcome =
      .droppedUnauthorized none ∧
    (handleMatrixEvent ctx (handleMatrixEvent ctx st ev1 j1 code1).state ev2 j2
        code2).state.pairingStore =
      (handleMatrixEvent ctx st ev1 j1 code1).state.pairingStore := by
  have h1 : handleMatrixEvent ctx st ev1 j1 code1 =
      ⟨.droppedUnauthorized (some ⟨str "Your Matrix user id: " ++ ev1.senderId, code1⟩),
        ⟨recordInboundTimestamp st.lastEventTsByRoom ev1.roomId ev1.timestamp,
          (ev1.senderId, code1) :: st.pairingStore⟩⟩ := by
    simp [handleMatrixEvent, hs1, hrep1, hpre1, hpol, hj1, hall,
      upsertChannelPairingRequest, hpair]
  have hs2 : ev2.senderId ≠ ctx.selfId := by
    rw [hsame]
    exact hs1
  have hlook1 : List.lookup ev1.senderId ((ev1.senderId, code1) :: st.pairingStore) =
      some code1 := by
    simp [List.lookup]
  refine ⟨by rw [h1], by rw [h1]; simp [List.lookup], List.suffix_append _ _, ?_, ?_⟩
  · rw [h1] at hrep2 hpre2 ⊢
    simp [handleMatrixEvent, hs1, hs2, hrep2, hpre2, hpol, hj2, hsame, hall,
      upsertChannelPairingRequest, hlook1]
  · rw [h1] at hrep2 hpre2 ⊢
    simp [handleMatrixEvent, hs1, hs2, hrep2, hpre2, hpol, hj2, hsame, hall,
      upsertChannelPairingRequest, hlook1]

/-- Witness for C4: two consecutive messages from unknown `@bob:example.org`
under `pairing` policy yield one reply with code 7 and then silence. -/
theorem C4_pairing_exactly_once_witness :
    (handleMatrixEvent ⟨str "@bot:x", true, 0, .pairing, [], []⟩ ⟨[], []⟩
        ⟨str "!r", str "@bob:example.org", none, none, 1, str "hi", none⟩ 2 7).outcome =
      .droppedUnauthorized
        (some ⟨str "Your Matrix user id: " ++ str "@bob:example.org", 7⟩) ∧
    (handleMatrixEvent ⟨str "@bot:x", true, 0, .pairing, [], []⟩ ⟨[], []⟩
        ⟨str "!r", str "@bob:example.org", none, none, 1, str "hi", none⟩ 2
        7).state.pairingStore.lookup (str "@bob:example.org") = some 7 ∧
    str "@bob:example.org" <:+ str "Your Matrix user id: " ++ str "@bob:example.org" ∧
    (handleMatrixEvent ⟨str "@bot:x", true, 0, .pairing, [], []⟩
        (handleMatrixEvent ⟨str "@bot:x", true, 0, .pairing, [], []⟩ ⟨[], []⟩
          ⟨str "!r", str "@bob:example.org", none, none, 1, str "hi", none⟩ 2 7).state
        ⟨str "!r", str "@bob:example.org", none, none, 2, str "hi again", none⟩ 2 9).outcome =
      .droppedUnauthorized none ∧
    (handleMatrixEvent ⟨str "@bot:x", true, 0, .pairing, [], []⟩
        (handleMatrixEvent ⟨str "@bot:x", true, 0, .pairing, [], []⟩ ⟨[], []⟩
          ⟨str "!r", str "@bob:example.org", none, none, 1, str "hi", none⟩ 2 7).state
        ⟨str "!r", str "@bob:example.org", none, none, 2, str "hi again", none⟩ 2
        9).state.pairingStore =
      (handleMatrixEvent ⟨str "@bot:x", true, 0, .pairing, [], []⟩ ⟨[], []⟩
        ⟨str "!r", str "@bob:example.org", none, none, 1, str "hi", none⟩ 2 7).state.pairingStore :=
  C4_pairing_exactly_once _ _ _ _ 2 2 7 9 (by decide) (by decide) (by decide) (by decide)
    (by decide) (by decide) (by decide) (by decide) (by decide) (by decide) (by decide)

/-- Claim C7: `shouldAutoJoinInvite` over a normalized pattern list is true
iff some candidate matches some pattern; an empty pattern list always yields
false; a literal (non-wildcard) pattern matches exactly the candidates whose
trimmed, lowercased form equals it; a wildcard pattern `<sigil>*:<domain>`
with nonempty domain matches exactly the candidates that start with the same
sigil and whose portion after the first `:` equals the domain; in particular
`!*:example.org` matches `!abc123:example.org` and rejects
`!abc123:other.org`. -/
theorem C7_auto_join_matcher :
    (∀ allowlist candidates, shouldAutoJoinInvite allowlist candidates = true ↔
      ∃ c ∈ candidates, ∃ e ∈ allowlist, matchesAutoJoinEntry e c = true) ∧
    (∀ candidates, shouldAutoJoinInvite [] candidates = false) ∧
    (∀ e c, isAutoJoinWildcard e = false → e ≠ [] →
      (matchesAutoJoinEntry e c = true ↔ toLowerStr (jsTrim c) = e)) ∧
    (∀ sig d c, sig ∈ ['!', '#', '@'] → d ≠ [] →
      (matchesAutoJoinEntry (sig :: '*' :: ':' :: d) c = true ↔
        jsStartsWith (toLowerStr (jsTrim c)) [sig] = true ∧
          extractMatrixDomain (toLowerStr (jsTrim c)) = d)) ∧
    matchesAutoJoinEntry (str "!*:example.org") (str "!abc123:example.org") = true ∧
    matchesAutoJoinEntry (str "!*:example.org") (str "!abc123:other.org") = false := by
  refine ⟨?_, ?_, ?_, ?_, by decide, by decide⟩
  · intro allowlist candidates
    unfold shouldAutoJoinInvite
    split_ifs with h
    · subst h
      simp
    · simp [List.any_eq_true]
  · intro candidates
    simp [shouldAutoJoinInvite]
  · intro e c hw he
    by_cases hn : toLowerStr (jsTrim c) = []
    · have hfalse : matchesAutoJoinEntry e c = false := by
        simp [matchesAutoJoinEntry, hn]
      rw [hfalse, hn]
      simp only [Bool.false_eq_true, false_iff]
      exact fun hcon => he hcon.symm
    · simp [matchesAutoJoinEntry, hn, hw]
  · intro sig d c hsig hd
    have hsplit : sig = '!' ∨ sig = '#' ∨ sig = '@' := by
      simpa using hsig
    have hwild : isAutoJoinWildcard (sig :: '*' :: ':' :: d) = true := by
      rcases hsplit with rfl | rfl | rfl <;>
        simp [isAutoJoinWildcard, jsStartsWith, str, List.isPrefixOf]
    by_cases hn : toLowerStr (jsTrim c) = []
    · simp [matchesAutoJoinEntry, hn, jsStartsWith, List.isPrefixOf]
    · have hmain : matchesAutoJoinEntry (sig :: '*' :: ':' :: d) c =
          if jsStartsWith (toLowerStr (jsTrim c)) [sig] = false then false
          else decide (extractMatrixDomain (toLowerStr (jsTrim c)) ≠ [] ∧
            extractMatrixDomain (toLowerStr (jsTrim c)) = d) := by
        simp [matchesAutoJoinEntry, hn, hwild]
      rw [hmain]
      by_cases hstart : jsStartsWith (toLowerStr (jsTrim c)) [sig] = false
      · rw [if_pos hstart]
        simp [hstart]
      · simp only [Bool.not_eq_false] at hstart
        rw [if_neg (by simp [hstart])]
        simp only [decide_eq_true_eq, hstart, true_and]
        constructor
        · rintro ⟨_, h⟩
          exact h
        · intro h
          exact ⟨by rw [h]; exact hd, h⟩

/-- Witness for C7: the wildcard characterization applied to
`!*:example.org` versus candidate `!abc123:example.org`. -/
theorem C7_auto_join_matcher_witness :
    matchesAutoJoinEntry (('!' : Char) :: '*' :: ':' :: str "example.org")
        (str "!abc123:example.org") = true ↔
      jsStartsWith (toLowerStr (jsTrim (str "!abc123:example.org"))) ['!'] = true ∧
        extractMatrixDomain (toLowerStr (jsTrim (str "!abc123:example.org"))) =
          str "example.org" :=
  C7_auto_join_matcher.2.2.2.1 '!' (str "example.org") (str "!abc123:example.org")
    (by decide) (by decide)

/-- Claim C8: the deterministic reconnect delay is monotonically
non-decreasing in the attempt number and capped at `maxMs` (initialMs 1500,
factor 1.8, maxMs 30000, jitter 0.25); with a fixed nonnegative jitter
sample the jittered delay is monotone too; the attempt counter resets to
zero on any `Prepared` or `Syncing` transition, so the next failure restarts
at the initial delay. -/
theorem C8_backoff_monotone_and_reset (n m : Nat) (h : n ≤ m) :
    computeBackoff SYNC_BACKOFF n ≤ computeBackoff SYNC_BACKOFF m ∧
    computeBackoff SYNC_BACKOFF m ≤ SYNC_BACKOFF.maxMs ∧
    (∀ r : ℚ, 0 ≤ r →
      computeBackoffJittered SYNC_BACKOFF n r ≤ computeBackoffJittered SYNC_BACKOFF m r) ∧
    (∀ a, restartAttemptAfter a SyncStateEvt.prepared = 0 ∧
      restartAttemptAfter a SyncStateEvt.syncing = 0) ∧
    (∀ a, computeBackoff SYNC_BACKOFF
        (restartAttemptAfter (restartAttemptAfter a SyncStateEvt.prepared)
          SyncStateEvt.errorState) = SYNC_BACKOFF.initialMs) := by
  have hbase : computeBackoff SYNC_BACKOFF n ≤ computeBackoff SYNC_BACKOFF m := by
    unfold computeBackoff
    apply min_le_min (le_refl _)
    apply mul_le_mul_of_nonneg_left _ (by norm_num [SYNC_BACKOFF])
    exact pow_le_pow_right₀ (by norm_num [SYNC_BACKOFF]) (Nat.sub_le_sub_right h 1)
  refine ⟨hbase, min_le_left _ _, ?_, fun a => ⟨rfl, rfl⟩, ?_⟩
  · intro r hr
    unfold computeBackoffJittered
    apply mul_le_mul_of_nonneg_right hbase
    have : (0 : ℚ) ≤ SYNC_BACKOFF.jitter * r := by
      apply mul_nonneg _ hr
      norm_num [SYNC_BACKOFF]
    linarith
  · intro a
    norm_num [computeBackoff, SYNC_BACKOFF, restartAttemptAfter]

/-- Witness for C8 at attempts 2 and 3 with jitter sample 1. -/
theorem C8_backoff_monotone_and_reset_witness :
    computeBackoff SYNC_BACKOFF 2 ≤ computeBackoff SYNC_BACKOFF 3 ∧
    computeBackoff SYNC_BACKOFF 3 ≤ SYNC_BACKOFF.maxMs ∧
    computeBackoffJittered SYNC_BACKOFF 2 1 ≤ computeBackoffJittered SYNC_BACKOFF 3 1 ∧
    restartAttemptAfter 5 SyncStateEvt.prepared = 0 ∧
    restartAttemptAfter 5 SyncStateEvt.syncing = 0 ∧
    computeBackoff SYNC_BACKOFF
        (restartAttemptAfter (restartAttemptAfter 5 SyncStateEvt.prepared)
          SyncStateEvt.errorState) = SYNC_BACKOFF.initialMs :=
  ⟨(C8_backoff_monotone_and_reset 2 3 (by norm_num)).1,
   (C8_backoff_monotone_and_reset 2 3 (by norm_num)).2.1,
   (C8_backoff_monotone_and_reset 2 3 (by norm_num)).2.2.1 1 (by norm_num),
   ((C8_backoff_monotone_and_reset 2 3 (by norm_num)).2.2.2.1 5).1,
   ((C8_backoff_monotone_and_reset 2 3 (by norm_num)).2.2.2.1 5).2,
   (C8_backoff_monotone_and_reset 2 3 (by norm_num)).2.2.2.2 5⟩
